import Mathlib

/-!
Shallow embedding of the mining-projection arithmetic of the BitcoinTracker
repository.  Real-valued JavaScript arithmetic is modelled over the rationals;
every numeric step taken by the relevant source functions (division by 1e8,
subtraction from 21000000, small powers of two, floor and ceiling of integer
quotients) is exact in IEEE double precision on the ranges of interest, so the
rational model is faithful.  Integer-valued JavaScript expressions
(Math.floor, Math.ceil, Math.round of quotients) are modelled on the integers.
The ambient clock read by new Date() inside the source functions is modelled
as an explicit day-number argument.
-/

/-- Model of Math.floor of the real quotient a / b of two integers; for a
positive divisor this coincides with floor division Int.fdiv. -/
def jsFloorDiv (a b : ℤ) : ℤ := Int.fdiv a b

/-- Model of Math.ceil of the real quotient a / b of two integers (b
positive), expressed through floor division. -/
def jsCeilDiv (a b : ℤ) : ℤ := -(Int.fdiv (-a) b)

/-- Model of Math.round of a rational: floor of x + 1/2, as in JavaScript for
the nonnegative values that occur here. -/
def jsRound (x : ℚ) : ℤ := ⌊x + 1 / 2⌋

/-- Constant TOTAL_BITCOIN_SUPPLY = 21000000 from src/unnamed/part_003. -/
def TOTAL_BITCOIN_SUPPLY : ℚ := 21000000

/-- Constant SATOSHIS_PER_BITCOIN = 100000000 from src/unnamed/part_003. -/
def SATOSHIS_PER_BITCOIN : ℚ := 100000000

/-- Constant BLOCKS_PER_DAY_AVERAGE = 144 from src/unnamed/part_003. -/
def BLOCKS_PER_DAY_AVERAGE : ℚ := 144

/-- Constant HALVING_INTERVAL = 210000 from src/unnamed/part_003 line 123;
the same literal 210000 is inlined in src/public/app-enhanced.js. -/
def HALVING_INTERVAL : ℤ := 210000

/-- The mutable field this.currentBlockReward = 6.25 set in the constructor of
BitcoinDataService in src/unnamed/part_003 line 14 (also src/unnamed/part_005
line 28), a hardcoded value updated manually after each halving. -/
def currentBlockRewardField : ℚ := 6.25

/-- Model of Math.pow(2, z) for an integer exponent z, written by cases so
that the kernel can evaluate it; the lemma pow2_eq_zpow identifies it with
the integer power of 2 in the rationals.  The double pow agrees with this
exact value for exponents between -1074 and 1023 and saturates to Infinity
from 1024 on; theorems that quantify over unbounded heights are therefore
restricted to the exact regime. -/
def pow2 : ℤ → ℚ
  | Int.ofNat n => ((2 ^ n : ℕ) : ℚ)
  | Int.negSucc n => 1 / ((2 ^ (n + 1) : ℕ) : ℚ)

theorem pow2_eq_zpow (z : ℤ) : pow2 z = (2 : ℚ) ^ z := by
  cases z with
  | ofNat n => simp [pow2, zpow_natCast]
  | negSucc n => simp [pow2, zpow_negSucc, one_div]

/-- The function getCurrentBlockReward(blockHeight) from
src/public/app-enhanced.js lines 155-158, identical in src/unnamed/part_000
lines 313-316: halvings = Math.floor(blockHeight / 210000);
return 50 / Math.pow(2, halvings).  The height is an arbitrary integer
because the source performs no input validation; for integer arguments
Math.pow(2, halvings) is the integer power of two, negative exponents giving
exact dyadic fractions. -/
def getCurrentBlockReward (blockHeight : ℤ) : ℚ :=
  50 / pow2 (jsFloorDiv blockHeight 210000)

theorem getCurrentBlockReward_eq_zpow (blockHeight : ℤ) :
    getCurrentBlockReward blockHeight =
      50 / (2 : ℚ) ^ (jsFloorDiv blockHeight 210000) := by
  rw [getCurrentBlockReward, pow2_eq_zpow]

theorem jsFloorDiv_mono_left {a b : ℤ} (c : ℤ) (hc : 0 ≤ c) (h : a ≤ b) :
    jsFloorDiv a c ≤ jsFloorDiv b c := by
  rcases eq_or_lt_of_le hc with hc0 | hcpos
  · rw [jsFloorDiv, jsFloorDiv, ← hc0]
    simp
  · rw [jsFloorDiv, jsFloorDiv, Int.fdiv_eq_ediv _ hc, Int.fdiv_eq_ediv _ hc]
    exact Int.ediv_le_ediv hcpos h

/-- The reward formula exactly as the specification states it:
rewardBtc = INITIAL_BLOCK_REWARD_SATOSHIS / 2 ^ halvings / 1e8 with
halvings = floor(height / HALVING_INTERVAL_BLOCKS),
INITIAL_BLOCK_REWARD_SATOSHIS = 50 * 10 ^ 8.  Stated separately from
getCurrentBlockReward so the two can be compared. -/
def specRewardBtc (height : ℤ) : ℚ :=
  5000000000 / (2 : ℚ) ^ (jsFloorDiv height HALVING_INTERVAL) / 100000000

/-- The circulating supply as computed by the source: stats.totalbc divided by
SATOSHIS_PER_BITCOIN (src/unnamed/part_003 line 29, src/public/app-enhanced.js
line 93).  The raw counter totalSatoshisMined is an integer. -/
def totalBitcoinsInCirculation (totalSatoshisMined : ℤ) : ℚ :=
  (totalSatoshisMined : ℚ) / SATOSHIS_PER_BITCOIN

/-- The remaining supply as computed by getRemainingBitcoin in
src/unnamed/part_003 line 96 (identically in src/public/app-enhanced.js line
94): TOTAL_BITCOIN_SUPPLY minus the circulating supply, with no validation,
no clamping and no error path. -/
def remainingBitcoin (totalSatoshisMined : ℤ) : ℚ :=
  TOTAL_BITCOIN_SUPPLY - totalBitcoinsInCirculation totalSatoshisMined

/-- The percentage mined as computed by getRemainingBitcoin in
src/unnamed/part_003 line 108. -/
def percentageMined (totalSatoshisMined : ℤ) : ℚ :=
  totalBitcoinsInCirculation totalSatoshisMined / TOTAL_BITCOIN_SUPPLY * 100

/-- The function calculateDailyMining() from src/public/app-enhanced.js lines
160-164: dailyBlocks = 144; currentReward = 6.25 (a hardcoded local constant,
not derived from the block height); returns dailyBlocks * currentReward. -/
def calculateDailyMining : ℚ := 144 * 6.25

/-- The value bitcoinMinedLast24h computed by getDailyMiningData in
src/unnamed/part_003 line 51: the observed number of blocks in the last 24
hours multiplied by the hardcoded service field this.currentBlockReward. -/
def bitcoinMinedLast24h (blocksMinedLast24h : ℤ) : ℚ :=
  (blocksMinedLast24h : ℚ) * currentBlockRewardField

/-- Output record of calculateNextHalving in src/public/app-enhanced.js lines
186-191.  Dates are day numbers: the source builds halvingDate = new Date()
and advances it by daysUntilHalving whole days. -/
structure HalvingEstimate where
  nextHalvingBlock : ℤ
  blocksUntilHalving : ℤ
  daysUntilHalving : ℤ
  estimatedDate : ℤ
  deriving DecidableEq

/-- The function calculateNextHalving(blockHeight) from
src/public/app-enhanced.js lines 178-192:
nextHalvingBlock = Math.ceil(blockHeight / 210000) * 210000;
blocksUntilHalving = nextHalvingBlock - blockHeight;
daysUntilHalving = Math.floor(blocksUntilHalving / 144);
halvingDate = new Date() advanced by daysUntilHalving days.
The ambient clock reading new Date() is made explicit as the day-number
argument todayDate; the source has no such parameter and reads the system
clock inside the function. -/
def calculateNextHalving (blockHeight todayDate : ℤ) : HalvingEstimate :=
  let nextHalvingBlock := jsCeilDiv blockHeight 210000 * 210000
  let blocksUntilHalving := nextHalvingBlock - blockHeight
  let daysUntilHalving := jsFloorDiv blocksUntilHalving 144
  { nextHalvingBlock := nextHalvingBlock
    blocksUntilHalving := blocksUntilHalving
    daysUntilHalving := daysUntilHalving
    estimatedDate := todayDate + daysUntilHalving }

/-- Output record of getNextHalvingEstimate in src/unnamed/part_003 lines
131-138. -/
structure NextHalvingEstimate where
  nextHalvingBlock : ℤ
  blocksUntilHalving : ℤ
  daysUntilHalving : ℤ
  estimatedDate : ℤ
  currentReward : ℚ
  nextReward : ℚ

/-- The method getNextHalvingEstimate(currentBlockHeight) of
BitcoinDataService from src/unnamed/part_003 lines 122-139:
nextHalvingBlock = Math.ceil(currentBlockHeight / HALVING_INTERVAL) *
HALVING_INTERVAL; blocksUntilHalving = nextHalvingBlock - currentBlockHeight;
daysUntilHalving = blocksUntilHalving / BLOCKS_PER_DAY_AVERAGE (a rational),
reported rounded with Math.round; estimatedDate = new Date() advanced by the
unrounded daysUntilHalving (whole-day truncation, equal to the floor for the
nonnegative offsets that occur); currentReward = this.currentBlockReward;
nextReward = this.currentBlockReward / 2.  The ambient new Date() is the
explicit day-number argument todayDate. -/
def getNextHalvingEstimate (currentBlockHeight todayDate : ℤ) : NextHalvingEstimate :=
  let nextHalvingBlock := jsCeilDiv currentBlockHeight HALVING_INTERVAL * HALVING_INTERVAL
  let blocksUntilHalving := nextHalvingBlock - currentBlockHeight
  let daysUntilHalving : ℚ := (blocksUntilHalving : ℚ) / BLOCKS_PER_DAY_AVERAGE
  { nextHalvingBlock := nextHalvingBlock
    blocksUntilHalving := blocksUntilHalving
    daysUntilHalving := jsRound daysUntilHalving
    estimatedDate := todayDate + ⌊daysUntilHalving⌋
    currentReward := currentBlockRewardField
    nextReward := currentBlockRewardField / 2 }

/-- A cache entry as stored by setCachedData: the payload together with the
Date.now() timestamp at storage time (src/server.js lines 30-35). -/
structure CacheEntry (α : Type) where
  data : α
  timestamp : ℤ

/-- The cache Map of src/server.js line 19 (and src/unnamed/part_005 line 4),
as a map from endpoint keys to optional entries. -/
def Cache (α : Type) : Type := String → Option (CacheEntry α)

/-- Constant CACHE_DURATION = 5 * 60 * 1000 milliseconds from src/server.js
line 20 and src/unnamed/part_005 line 5. -/
def CACHE_DURATION : ℤ := 5 * 60 * 1000

/-- The function getCachedData(key) from src/server.js lines 22-28
(identically src/unnamed/part_005 lines 7-13): looks the key up and returns
cached.data when Date.now() - cached.timestamp < CACHE_DURATION, otherwise
null.  Date.now() is the explicit argument now. -/
def getCachedData {α : Type} (cache : Cache α) (key : String) (now : ℤ) :
    Option α :=
  match cache key with
  | some cached => if now - cached.timestamp < CACHE_DURATION then some cached.data else none
  | none => none

/-- The function setCachedData(key, data) from src/server.js lines 30-35
(identically src/unnamed/part_005 lines 15-20): stores the payload for the
key with timestamp Date.now(), overwriting any previous entry. -/
def setCachedData {α : Type} (cache : Cache α) (key : String) (data : α)
    (now : ℤ) : Cache α :=
  fun k => if k = key then some ⟨data, now⟩ else cache k

/-- Claim C1: for every totalSatoshisMined in the valid range, the circulating
supply plus the computed remaining supply equals exactly 21000000 BTC, with no
rounding loss before presentation. -/
theorem supply_invariant_exact (t : ℤ) (_h0 : 0 ≤ t)
    (_h1 : t ≤ 2100000000000000) :
    totalBitcoinsInCirculation t + remainingBitcoin t = 21000000 := by
  rw [remainingBitcoin, TOTAL_BITCOIN_SUPPLY]
  ring

/-- Witness for C1 at the concrete counter used in the specification tests. -/
theorem supply_invariant_exact_case :
    0 ≤ (1995762100000000 : ℤ) ∧ (1995762100000000 : ℤ) ≤ 2100000000000000 ∧
      totalBitcoinsInCirculation 1995762100000000 +
        remainingBitcoin 1995762100000000 = 21000000 :=
  ⟨by decide, by decide, supply_invariant_exact 1995762100000000 (by decide) (by decide)⟩

/-- Claim C3: for every height h at least 0, getCurrentBlockReward h equals
the specification formula INITIAL_BLOCK_REWARD_SATOSHIS divided by 2 to the
halvings, divided by 1e8; and the four sample values hold. -/
theorem blockReward_matches_spec_formula :
    (∀ h : ℤ, 0 ≤ h → getCurrentBlockReward h = specRewardBtc h) ∧
      getCurrentBlockReward 0 = 50 ∧ getCurrentBlockReward 210000 = 25 ∧
      getCurrentBlockReward 630000 = 6.25 ∧
      getCurrentBlockReward 840000 = 3.125 := by
  refine ⟨fun h _ => ?_, ?_, ?_, ?_, ?_⟩
  · rw [getCurrentBlockReward_eq_zpow, specRewardBtc, HALVING_INTERVAL]
    have hp : (0 : ℚ) < 2 ^ jsFloorDiv h 210000 := zpow_pos (by norm_num) _
    field_simp
    ring
  · rw [getCurrentBlockReward, show jsFloorDiv 0 210000 = 0 from by decide,
      show pow2 0 = 1 from by decide]
    norm_num
  · rw [getCurrentBlockReward, show jsFloorDiv 210000 210000 = 1 from by decide,
      show pow2 1 = 2 from by decide]
    norm_num
  · rw [getCurrentBlockReward, show jsFloorDiv 630000 210000 = 3 from by decide,
      show pow2 3 = 8 from by decide]
    norm_num
  · rw [getCurrentBlockReward, show jsFloorDiv 840000 210000 = 4 from by decide,
      show pow2 4 = 16 from by decide]
    norm_num

/-- Witness for C3 at a concrete nonnegative height. -/
theorem blockReward_matches_spec_formula_case :
    0 ≤ (926444 : ℤ) ∧ getCurrentBlockReward 926444 = specRewardBtc 926444 :=
  ⟨by decide, blockReward_matches_spec_formula.1 926444 (by decide)⟩

/-- Claim C7: for all heights h1 at least 0 and h2 at least h1, the reward at
h1 is nonnegative and the reward at h2 does not exceed the reward at h1, so
getCurrentBlockReward is nonnegative and non-increasing on valid heights. -/
theorem blockReward_nonneg_antitone (h₁ h₂ : ℤ) (_H0 : 0 ≤ h₁) (H : h₁ ≤ h₂) :
    0 ≤ getCurrentBlockReward h₁ ∧
      getCurrentBlockReward h₂ ≤ getCurrentBlockReward h₁ := by
  rw [getCurrentBlockReward_eq_zpow, getCurrentBlockReward_eq_zpow]
  have hmono : jsFloorDiv h₁ 210000 ≤ jsFloorDiv h₂ 210000 :=
    jsFloorDiv_mono_left 210000 (by norm_num) H
  have p1 : (0 : ℚ) < 2 ^ jsFloorDiv h₁ 210000 := zpow_pos (by norm_num) _
  have p2 : (0 : ℚ) < 2 ^ jsFloorDiv h₂ 210000 := zpow_pos (by norm_num) _
  refine ⟨le_of_lt (div_pos (by norm_num) p1), ?_⟩
  exact (div_le_div_iff_of_pos_left (by norm_num) p2 p1).mpr
    (zpow_le_zpow_right₀ (by norm_num) hmono)

/-- Witness for C7 across the first halving boundary. -/
theorem blockReward_nonneg_antitone_case :
    0 ≤ (0 : ℤ) ∧ (0 : ℤ) ≤ 210000 ∧
      (0 ≤ getCurrentBlockReward 0 ∧
        getCurrentBlockReward 210000 ≤ getCurrentBlockReward 0) :=
  ⟨by decide, by decide, blockReward_nonneg_antitone 0 210000 (by decide) (by decide)⟩

/-- Counterexample to claim C8: at 33 halvings (height 6930000) the code does
not return 0; it returns 50 divided by 2 to the 33, a positive fraction of a
satoshi. -/
theorem blockReward_not_zero_at_33_halvings :
    getCurrentBlockReward 6930000 ≠ 0 ∧
      getCurrentBlockReward 6930000 = 50 / 8589934592 := by
  rw [getCurrentBlockReward, show jsFloorDiv 6930000 210000 = 33 from by decide,
    show pow2 33 = 8589934592 from by decide]
  norm_num

/-- Claim C8 as amended: for heights of at least 33 halvings and below the
double-overflow bound of 1024 halvings (6930000 <= h < 215040000, the range
on which the IEEE-double evaluation of 50 / Math.pow(2, halvings) is finite
and exactly equals the rational value), the computed reward is strictly
positive and strictly below one satoshi (10 to the minus 8 BTC) - a
fractional satoshi, never exactly 0 and never negative - and the divisor is
positive so no division by zero occurs.  From 1024 halvings on the double
pow saturates to Infinity and the program returns exactly 0, a regime
outside this exact rational embedding. -/
theorem blockReward_below_one_satoshi (h : ℤ) (H : 6930000 ≤ h)
    (_Hsat : h < 215040000) :
    0 < getCurrentBlockReward h ∧ getCurrentBlockReward h < 1 / 100000000 := by
  rw [getCurrentBlockReward_eq_zpow]
  have h33 : (33 : ℤ) ≤ jsFloorDiv h 210000 := by
    have := jsFloorDiv_mono_left 210000 (by norm_num) H
    rw [show jsFloorDiv 6930000 210000 = 33 from by decide] at this
    exact this
  have p : (0 : ℚ) < 2 ^ jsFloorDiv h 210000 := zpow_pos (by norm_num) _
  have p33 : (0 : ℚ) < 2 ^ (33 : ℤ) := zpow_pos (by norm_num) _
  refine ⟨div_pos (by norm_num) p, ?_⟩
  have hle : (2 : ℚ) ^ (33 : ℤ) ≤ 2 ^ jsFloorDiv h 210000 :=
    zpow_le_zpow_right₀ (by norm_num) h33
  calc 50 / (2 : ℚ) ^ jsFloorDiv h 210000
      ≤ 50 / (2 : ℚ) ^ (33 : ℤ) :=
        (div_le_div_iff_of_pos_left (by norm_num) p p33).mpr hle
    _ < 1 / 100000000 := by norm_num

/-- Witness for the amended C8 at exactly 33 halvings. -/
theorem blockReward_below_one_satoshi_case :
    (6930000 : ℤ) ≤ 6930000 ∧ (6930000 : ℤ) < 215040000 ∧
      (0 < getCurrentBlockReward 6930000 ∧
        getCurrentBlockReward 6930000 < 1 / 100000000) :=
  ⟨by decide, by decide,
    blockReward_below_one_satoshi 6930000 (by decide) (by decide)⟩

/-- Counterexample to claim C9: at height -1 the code does not reject the
input or fail; it returns the ordinary value 100, twice the initial reward. -/
theorem blockReward_negative_height_returns_value :
    getCurrentBlockReward (-1) = 100 := by
  rw [getCurrentBlockReward, show jsFloorDiv (-1) 210000 = Int.negSucc 0 from by decide]
  norm_num [pow2]

/-- Claim C9 as amended: negative heights are not rejected and produce no
error; the code computes a negative halvings count and returns an inflated
reward of at least 100 BTC (for heights at least 0 the function likewise has
no error conditions, being total). -/
theorem blockReward_negative_height_inflates (h : ℤ) (H : h < 0) :
    100 ≤ getCurrentBlockReward h := by
  rw [getCurrentBlockReward_eq_zpow]
  have hle : jsFloorDiv h 210000 ≤ -1 := by
    have := jsFloorDiv_mono_left 210000 (by norm_num) (show h ≤ -1 by omega)
    rw [show jsFloorDiv (-1) 210000 = -1 from by decide] at this
    exact this
  have p : (0 : ℚ) < 2 ^ jsFloorDiv h 210000 := zpow_pos (by norm_num) _
  rw [le_div_iff₀ p]
  have hb : (2 : ℚ) ^ jsFloorDiv h 210000 ≤ 2 ^ (-1 : ℤ) :=
    zpow_le_zpow_right₀ (by norm_num) hle
  have h2 : (2 : ℚ) ^ (-1 : ℤ) = 1 / 2 := by norm_num
  rw [h2] at hb
  linarith

/-- Witness for the amended C9 at height -1. -/
theorem blockReward_negative_height_inflates_case :
    (-1 : ℤ) < 0 ∧ 100 ≤ getCurrentBlockReward (-1) :=
  ⟨by decide, blockReward_negative_height_inflates (-1) (by decide)⟩

/-- Claim C2, evaluation at the failing input: at height 210000, an exact
multiple of the halving interval, both implementations compute a next-halving
height equal to the current height (210000, not 420000) and therefore zero
blocks until the halving, contradicting the required strictly-greater
multiple. -/
theorem nextHalving_boundary_bug_eval :
    (calculateNextHalving 210000 0).nextHalvingBlock = 210000 ∧
      (calculateNextHalving 210000 0).blocksUntilHalving = 0 ∧
      (getNextHalvingEstimate 210000 0).nextHalvingBlock = 210000 ∧
      (getNextHalvingEstimate 210000 0).blocksUntilHalving = 0 := by
  refine ⟨by decide, by decide, by decide, by decide⟩

/-- Counterexample to claim C4: with totalSatoshisMined one satoshi above the
21 million BTC cap, the code returns remainingBitcoin = -1/100000000 as an
ordinary value rather than failing with a structured error; the negative
remaining supply is produced, not rejected. -/
theorem remaining_negative_no_failure :
    remainingBitcoin 2100000000000001 = -1 / 100000000 ∧
      remainingBitcoin 2100000000000001 < 0 := by
  rw [remainingBitcoin, totalBitcoinsInCirculation, TOTAL_BITCOIN_SUPPLY,
    SATOSHIS_PER_BITCOIN]
  norm_num

/-- Claim C4 as amended: when totalSatoshisMined exceeds 21000000 times 10 to
the 8, the computed remaining supply is negative and is returned exactly as
computed - the code indeed never clamps or coerces it, but it also raises no
SupplyInvariantViolated error, getRemainingBitcoin being total on its
arithmetic path. -/
theorem remaining_negative_passed_through (t : ℤ)
    (H : 2100000000000000 < t) :
    remainingBitcoin t < 0 ∧
      totalBitcoinsInCirculation t + remainingBitcoin t = 21000000 := by
  constructor
  · rw [remainingBitcoin, totalBitcoinsInCirculation, TOTAL_BITCOIN_SUPPLY,
      SATOSHIS_PER_BITCOIN]
    rw [sub_neg]
    rw [lt_div_iff₀ (by norm_num : (0 : ℚ) < 100000000)]
    have : (2100000000000000 : ℚ) < (t : ℚ) := by exact_mod_cast H
    linarith
  · rw [remainingBitcoin, TOTAL_BITCOIN_SUPPLY]
    ring

/-- Witness for the amended C4 one satoshi above the cap. -/
theorem remaining_negative_passed_through_case :
    (2100000000000000 : ℤ) < 2100000000000001 ∧
      (remainingBitcoin 2100000000000001 < 0 ∧
        totalBitcoinsInCirculation 2100000000000001 +
          remainingBitcoin 2100000000000001 = 21000000) :=
  ⟨by decide, remaining_negative_passed_through 2100000000000001 (by decide)⟩

/-- Claim C5, evaluation at the failing input: calculateDailyMining multiplies
144 blocks by a hardcoded 6.25 BTC reward and returns 900, while 144 times
the height-indexed reward at height 926444 is 450; the daily rate therefore
does not equal blocksPerDay times currentBlockReward(height).  The serverless
variant bitcoinMinedLast24h shows the same divergence with the observed block
count 144. -/
theorem dailyMining_uses_stale_hardcoded_reward :
    calculateDailyMining = 900 ∧
      getCurrentBlockReward 926444 = 3.125 ∧
      144 * getCurrentBlockReward 926444 = 450 ∧
      calculateDailyMining ≠ 144 * getCurrentBlockReward 926444 ∧
      bitcoinMinedLast24h 144 = 900 := by
  have hr : getCurrentBlockReward 926444 = 3.125 := by
    rw [getCurrentBlockReward, show jsFloorDiv 926444 210000 = 4 from by decide,
      show pow2 4 = 16 from by decide]
    norm_num
  refine ⟨by norm_num [calculateDailyMining], hr, ?_, ?_, ?_⟩
  · rw [hr]; norm_num
  · rw [hr, calculateDailyMining]; norm_num
  · norm_num [bitcoinMinedLast24h, currentBlockRewardField]

/-- Counterexample to claim C6: two calls of calculateNextHalving with the
identical block height 850000 but different ambient clock readings produce
different outputs, so the output is not a function of the RawChainStats
input alone - the ambient system clock is a hidden input read inside the
calculation. -/
theorem nextHalving_ambient_clock_dependence :
    calculateNextHalving 850000 0 ≠ calculateNextHalving 850000 1 := by
  decide

/-- Claim C6 as amended: the projection arithmetic is deterministic in the
pair of the block height and the ambient clock reading; the clock (read by
new Date() inside the function, not passed explicitly) affects only the
estimatedDate field, which it shifts additively, while the next-halving
height, the blocks remaining and the days remaining depend on the height
alone. -/
theorem nextHalving_clock_enters_only_date (h d : ℤ) :
    (calculateNextHalving h d).nextHalvingBlock =
        (calculateNextHalving h 0).nextHalvingBlock ∧
      (calculateNextHalving h d).blocksUntilHalving =
        (calculateNextHalving h 0).blocksUntilHalving ∧
      (calculateNextHalving h d).daysUntilHalving =
        (calculateNextHalving h 0).daysUntilHalving ∧
      (calculateNextHalving h d).estimatedDate =
        d + (calculateNextHalving h 0).daysUntilHalving := by
  refine ⟨rfl, rfl, rfl, rfl⟩

/-- Claim C10: after setCachedData stores a payload for a key at time ts, a
getCachedData lookup of that key at time now returns exactly that payload
when now - ts is strictly below CACHE_DURATION = 300000 milliseconds and
null otherwise; a key never stored always yields null. -/
theorem getCachedData_fresh_iff (α : Type) (cache : Cache α) (key : String)
    (data : α) (ts now : ℤ) :
    getCachedData (setCachedData cache key data ts) key now =
        (if now - ts < CACHE_DURATION then some data else none) ∧
      getCachedData (fun _ => none : Cache α) key now = none := by
  constructor
  · rw [getCachedData, setCachedData]
    simp
  · rw [getCachedData]
